import Mathlib

/-!
Verification development for the iambic-couplet classifier repository
(couplets.py, test.py, test2.py, test_lim.py).

The Python sources are shallowly embedded below.  Text is modeled as
`List Char` (Lean `String` at the API boundary); the Python character
classes (`\s`, `[A-Za-z]`, `str.lower`, `str.isdigit`) are modeled at
the ASCII level, which is the fragment the classifier operates on after
its own character stripping.  The pronunciation lexicon (NLTK's CMU
dictionary, external data loaded at process start) is a parameter of
every embedded function: `Lexicon` maps a word to its list of
pronunciation variants, each a list of phoneme symbol strings; the
empty list models absence from the dictionary.
-/

/-- Python whitespace class `\s` restricted to ASCII: space, tab,
newline, carriage return, vertical tab, form feed. -/
def isPyWs (c : Char) : Bool :=
  c == ' ' || c == '\t' || c == '\n' || c == '\r' || c == '\x0b' || c == '\x0c'

/-- ASCII apostrophe character, kept by the cleaning regexes. -/
def apos : Char := Char.ofNat 39

/-- Python `str.lower()` on the ASCII fragment (maps A-Z to a-z). -/
def pyLower (s : List Char) : List Char :=
  s.map Char.toLower

/-- `str.lower()` at the `String` boundary. -/
def pyLowerS (s : String) : String :=
  String.mk (pyLower s.data)

/-- Python `str.strip()`: drop leading and trailing whitespace. -/
def pyStrip (s : List Char) : List Char :=
  ((s.dropWhile isPyWs).reverse.dropWhile isPyWs).reverse

/-- Does `p` occur at the head of `s`?  (Substring match anchored at the
start, used by the literal-replacement scanner.) -/
def listStartsWith : List Char → List Char → Bool
  | [], _ => true
  | _ :: _, [] => false
  | p :: ps, c :: cs => p == c && listStartsWith ps cs

/-- One fuelled step scanner for Python `str.replace(pat, rep)`:
left-to-right, non-overlapping literal replacement.  The fuel is the
length of the remaining text, so it never runs out. -/
def pyReplaceGo (pat rep : List Char) : Nat → List Char → List Char
  | 0, s => s
  | _ + 1, [] => []
  | fuel + 1, c :: rest =>
    if pat ≠ [] ∧ listStartsWith pat (c :: rest) = true then
      rep ++ pyReplaceGo pat rep fuel ((c :: rest).drop pat.length)
    else
      c :: pyReplaceGo pat rep fuel rest

/-- Python `str.replace(pat, rep)` (literal, all occurrences). -/
def pyReplace (s pat rep : List Char) : List Char :=
  pyReplaceGo pat rep s.length s

/-- Python `re.sub(r'\s+', ' ', s)`: collapse each maximal whitespace
run to a single space. -/
def collapseWs : List Char → List Char
  | [] => []
  | [c] => if isPyWs c then [' '] else [c]
  | c1 :: c2 :: rest =>
    if isPyWs c1 && isPyWs c2 then collapseWs (c2 :: rest)
    else (if isPyWs c1 then ' ' else c1) :: collapseWs (c2 :: rest)

/-- Worker for Python `str.split()` with no separator: split on
whitespace runs, discarding empty pieces.  `acc` is the reversed
current word. -/
def pySplitGo : List Char → List Char → List String
  | acc, [] => if acc.isEmpty then [] else [String.mk acc.reverse]
  | acc, c :: rest =>
    if isPyWs c then
      if acc.isEmpty then pySplitGo [] rest
      else String.mk acc.reverse :: pySplitGo [] rest
    else pySplitGo (c :: acc) rest

/-- Python `str.split()` (no argument): whitespace-separated words. -/
def pySplit (s : List Char) : List String :=
  pySplitGo [] s

/-- Numeric value of a decimal digit run, as Python `int()` reads it. -/
def digitsToNat (run : List Char) : Nat :=
  run.foldl (fun n c => n * 10 + (c.toNat - 48)) 0

/-- Replace every maximal digit run in the text by the words produced
by `n2w` (Python `re.sub(r'\d+', lambda m: num2words(int(m.group())), text)`).
The accumulator carries the value of the digit run being read. -/
def expandDigitsGo (n2w : Nat → String) : Option Nat → List Char → List Char
  | none, [] => []
  | some v, [] => (n2w v).data
  | none, c :: rest =>
    if c.isDigit then expandDigitsGo n2w (some (c.toNat - 48)) rest
    else c :: expandDigitsGo n2w none rest
  | some v, c :: rest =>
    if c.isDigit then expandDigitsGo n2w (some (v * 10 + (c.toNat - 48))) rest
    else (n2w v).data ++ c :: expandDigitsGo n2w none rest

/-- Digit-run expansion at the text level. -/
def expandDigits (n2w : Nat → String) (s : List Char) : List Char :=
  expandDigitsGo n2w none s

/-- `min` of a list of naturals, as Python `min(list)` on a nonempty
list (the default 0 branch is never reached by the callers, which
guard nonemptiness). -/
def listMinN : List Nat → Nat
  | [] => 0
  | x :: xs => xs.foldl Nat.min x

/-- `max` of a list of naturals, as Python `max(list)` on a nonempty
list. -/
def listMaxN : List Nat → Nat
  | [] => 0
  | x :: xs => xs.foldl Nat.max x

/-- `itertools.product` over a list of choice lists: the first list
varies slowest, matching Python's enumeration order. -/
def cartProd : List (List α) → List (List α)
  | [] => [[]]
  | l :: ls => l.flatMap fun x => (cartProd ls).map fun tl => x :: tl

/-- A pronunciation lexicon: word → pronunciation variants, each a list
of phoneme symbols.  `[]` models absence from the dictionary. -/
def Lexicon : Type := String → List (List String)

/-- Sum over the per-word stress-option lists of the shortest variant
length (test.py line 109 / test_lim.py line 167:
`sum(min(len(patterns) for patterns in p) for p in stress_options)`). -/
def minSyllablesOf (opts : List (List (List Nat))) : Nat :=
  (opts.map fun p => listMinN (p.map List.length)).sum

/-- Sum over the per-word stress-option lists of the longest variant
length (test.py line 110 / test_lim.py line 168). -/
def maxSyllablesOf (opts : List (List (List Nat))) : Nat :=
  (opts.map fun p => listMaxN (p.map List.length)).sum

namespace Couplets

/-- Lookup table for cardinals below twenty (couplets.py `num2words`). -/
def under20 : List String :=
  ["zero", "one", "two", "three", "four", "five", "six", "seven", "eight",
   "nine", "ten", "eleven", "twelve", "thirteen", "fourteen", "fifteen",
   "sixteen", "seventeen", "eighteen", "nineteen"]

/-- Lookup table for multiples of ten (couplets.py `num2words`). -/
def tens : List String :=
  ["twenty", "thirty", "forty", "fifty", "sixty", "seventy", "eighty",
   "ninety"]

/-- Fuelled worker for couplets.py `num2words`: pivots 100 and 1000,
`pivot = max {k ∈ {100, 1000} : k ≤ num}`.  The fuel (strictly above
`num` at every call) makes the recursion structural; the zero-fuel
branch is unreachable. -/
def num2wordsGo : Nat → Nat → String
  | 0, _ => ""
  | fuel + 1, n =>
    if n < 20 then under20.getD n ""
    else if n < 100 then
      tens.getD (n / 10 - 2) "" ++
        (if n % 10 == 0 then "" else " " ++ under20.getD (n % 10) "")
    else
      let pivot := if n < 1000 then 100 else 1000
      let pivotWord := if n < 1000 then "hundred" else "thousand"
      num2wordsGo fuel (n / pivot) ++ " " ++ pivotWord ++
        (if n % pivot == 0 then "" else " " ++ num2wordsGo fuel (n % pivot))

/-- couplets.py `num2words`. -/
def num2words (n : Nat) : String :=
  num2wordsGo (n + 1) n

/-- couplets.py `normalize_text`: ordered substitutions, digit-run
expansion, strip of characters outside letters, whitespace and
apostrophe, then strip, lowercase, and whitespace collapsing. -/
def normalize_text (s : List Char) : List Char :=
  let s1 := pyReplace (pyReplace (pyReplace s ['&'] " and ".data)
              "w/".data "with".data) "w/o".data "without".data
  let s2 := expandDigits num2words s1
  let s3 := s2.filter fun c => c.isAlpha || isPyWs c || c == apos
  collapseWs (pyLower (pyStrip s3))

/-- couplets.py `word_stress_patterns` for one word: per variant, the
stress digits of the phonemes whose last character is a digit
(`int(phoneme[-1]) for phoneme in pron if phoneme[-1].isdigit()`). -/
def wsp (lex : Lexicon) (w : String) : List (List Nat) :=
  (lex w).map fun pron =>
    pron.filterMap fun ph =>
      match ph.data.getLast? with
      | some c => if c.isDigit then some (c.toNat - 48) else none
      | none => none

/-- couplets.py `is_iambic_pentameter` (the strict template): length
exactly 10, stress 0 at even indices and 1 at odd indices. -/
def is_iambic_pentameter (pattern : List Nat) : Bool :=
  pattern.length == 10 &&
    pattern.enum.all fun p => if p.1 % 2 == 0 then p.2 == 0 else p.2 == 1

/-- couplets.py `check_iambic_pentameter`: reject on a line break,
normalize, reject empty or unknown-word lines, enumerate the full
cartesian product of per-word variant choices while counting the
patterns checked, then reject if more than 24 patterns were checked,
else report whether some pattern was strict iambic pentameter. -/
def check_iambic_pentameter (lex : Lexicon) (raw_text : String) : Bool :=
  if raw_text.data.contains '\n' then false
  else if (pySplit (normalize_text raw_text.data)).isEmpty ||
      (pySplit (normalize_text raw_text.data)).any (fun w => (lex w).isEmpty) then
    false
  else if (cartProd ((pySplit (normalize_text raw_text.data)).map
      fun w => wsp lex w)).length > 24 then
    false
  else
    (cartProd ((pySplit (normalize_text raw_text.data)).map
      fun w => wsp lex w)).any fun comb => is_iambic_pentameter comb.flatten

/-- Number of stress combinations the couplets.py loop runs through for
a line: 0 when the line is rejected before the loop, otherwise the full
cartesian-product size (the loop at lines 87-92 has no break, so
`patterns_checked` ends at the product size). -/
def enumerated (lex : Lexicon) (raw_text : String) : Nat :=
  if raw_text.data.contains '\n' then 0
  else if (pySplit (normalize_text raw_text.data)).isEmpty ||
      (pySplit (normalize_text raw_text.data)).any (fun w => (lex w).isEmpty) then
    0
  else
    (cartProd ((pySplit (normalize_text raw_text.data)).map
      fun w => wsp lex w)).length

/-- Whether some enumerated stress combination of the line matches the
strict iambic template (the value of `found_iambic` after the loop),
with the same pre-loop rejections as the source. -/
def anyMatch (lex : Lexicon) (raw_text : String) : Bool :=
  if raw_text.data.contains '\n' then false
  else if (pySplit (normalize_text raw_text.data)).isEmpty ||
      (pySplit (normalize_text raw_text.data)).any (fun w => (lex w).isEmpty) then
    false
  else
    (cartProd ((pySplit (normalize_text raw_text.data)).map
      fun w => wsp lex w)).any fun comb => is_iambic_pentameter comb.flatten

/-- Number of normalized tokens of the line with more than one
pronunciation variant in the lexicon (the "ambiguous" tokens). -/
def ambiguous_token_count (lex : Lexicon) (raw_text : String) : Nat :=
  (pySplit (normalize_text raw_text.data)).countP fun w => 1 < (lex w).length

/-- The `min_syllables` bound of test.py line 109 / test_lim.py line
167 computed over the line's uncollapsed couplets.py stress options
(couplets.py itself never computes this bound). -/
def min_syllables (lex : Lexicon) (raw_text : String) : Nat :=
  minSyllablesOf ((pySplit (normalize_text raw_text.data)).map fun w => wsp lex w)

/-- The corresponding `max_syllables` bound. -/
def max_syllables (lex : Lexicon) (raw_text : String) : Nat :=
  maxSyllablesOf ((pySplit (normalize_text raw_text.data)).map fun w => wsp lex w)

/-- Does a phoneme symbol carry a stress tag (any digit character)? -/
def hasStressTag (ph : String) : Bool :=
  ph.data.any Char.isDigit

/-- Terminal phoneme tail of one pronunciation: the suffix starting at
the last stress-tagged phoneme, or the whole pronunciation when no
phoneme is tagged (couplets.py `get_all_phoneme_endings`, inner loop). -/
def phonemeEnding : List String → List String
  | [] => []
  | ph :: rest => if rest.any hasStressTag then phonemeEnding rest else ph :: rest

/-- couplets.py `get_all_phoneme_endings`: one ending per pronunciation
variant of the lowercased word; `[]` when the word is absent. -/
def get_all_phoneme_endings (lex : Lexicon) (word : String) : List (List String) :=
  (lex (pyLowerS word)).map phonemeEnding

/-- couplets.py `do_words_rhyme`.  The Python function returns `True`,
`False`, or falls off the end returning `None`; the embedding returns
`some true`, `some false`, or `none` accordingly. -/
def do_words_rhyme (lex : Lexicon) (word1 word2 : String) : Option Bool :=
  if pyLowerS word1 = pyLowerS word2 then some false
  else if (get_all_phoneme_endings lex word1).isEmpty ||
      (get_all_phoneme_endings lex word2).isEmpty then
    some false
  else if (get_all_phoneme_endings lex word1).length > 1 ||
      (get_all_phoneme_endings lex word2).length > 1 then
    some false
  else if (get_all_phoneme_endings lex word1).headD [] =
      (get_all_phoneme_endings lex word2).headD [] then
    some true
  else none

/-- couplets.py `get_last_word`: lowercase, strip characters outside
letters, whitespace and apostrophe, split, and take the last word
(`None` when no word remains). -/
def get_last_word (text : String) : Option String :=
  (pySplit ((pyLower text.data).filter fun c =>
    c.isAlpha || isPyWs c || c == apos)).getLast?

end Couplets

/-- A post as consumed by the couplets.py pairing loop: only the text
and the creation timestamp (modeled in whole seconds) matter there. -/
structure BlueskyPost where
  post_text : String
  created_at : Int
deriving DecidableEq, Repr

/-- couplets.py `RhymingCouplet`: a pair of posts. -/
structure RhymingCouplet where
  first_post : BlueskyPost
  second_post : BlueskyPost
deriving DecidableEq, Repr

/-- couplets.py `RhymingCouplet.time_difference`: absolute difference
of the two creation timestamps, in seconds. -/
def RhymingCouplet.time_difference (c : RhymingCouplet) : Nat :=
  (c.first_post.created_at - c.second_post.created_at).natAbs

namespace Couplets

/-- The pairing loop of couplets.py `find_rhyming_couplets` (lines
406-420), applied to the already classified and validated messages: for
each ordered pair `i < j`, skip posts without a last word, and emit a
couplet whenever `do_words_rhyme` on the two last words is truthy
(i.e. returns `True`; `None` is falsy in Python).  No time window is
consulted. -/
def find_rhyming_couplets (lex : Lexicon) : List BlueskyPost → List RhymingCouplet
  | [] => []
  | post1 :: rest =>
    match get_last_word post1.post_text with
    | none => find_rhyming_couplets lex rest
    | some word1 =>
      (rest.filterMap fun post2 =>
        match get_last_word post2.post_text with
        | none => none
        | some word2 =>
          if do_words_rhyme lex word1 word2 = some true then
            some ⟨post1, post2⟩
          else none) ++ find_rhyming_couplets lex rest

end Couplets

namespace TestCommon

/-- test.py / test2.py `word_stress_patterns` for one word: per
variant, the digits of the phonemes whose last character is one of
`'012'`. -/
def wsp (lex : Lexicon) (w : String) : List (List Nat) :=
  (lex w).map fun pron =>
    pron.filterMap fun ph =>
      match ph.data.getLast? with
      | some c =>
        if c = '0' ∨ c = '1' ∨ c = '2' then some (c.toNat - 48) else none
      | none => none

/-- test.py / test2.py `is_iambic_pentameter` (the permissive
template): length exactly 10, stress 0 or 2 at even indices and 1 at
odd indices. -/
def is_iambic_pentameter (pattern : List Nat) : Bool :=
  pattern.length == 10 &&
    pattern.enum.all fun p =>
      if p.1 % 2 == 0 then p.2 == 0 || p.2 == 2 else p.2 == 1

/-- Python `len(set(words)) == 1`: the word list is nonempty and all
its words are equal. -/
def setSize1 : List String → Bool
  | [] => false
  | w :: ws => ws.all fun x => x == w

/-- The classifier tail shared verbatim by test.py (lines 97-118) and
test2.py (lines 85-106), from the cleaned word list on: the
all-words-identical rejection, the dictionary-membership rejection, the
collapse of the stress options to the first variant
(`stress_options = [[s[0]] for s in stress_options]`), the (dead)
more-than-3-ambiguous-words rejection, the min/max syllable-bound
rejection against 10, and the product search with the permissive
template. -/
def stress_core (lex : Lexicon) (words : List String) : Bool :=
  if setSize1 words then false
  else if !(words.all fun w => !(lex w).isEmpty) then false
  else
    let stress_options := (words.map fun w => wsp lex w).map fun s => [s.headD []]
    if stress_options.countP (fun p => p.length > 1) > 3 then false
    else if minSyllablesOf stress_options > 10 ∨ maxSyllablesOf stress_options < 10 then false
    else
      (cartProd stress_options).any fun comb => is_iambic_pentameter comb.flatten

/-- Number of stress combinations the shared classifier tail runs
through: 0 when rejected before the product loop, else the product
size. -/
def core_enumerated (lex : Lexicon) (words : List String) : Nat :=
  if setSize1 words then 0
  else if !(words.all fun w => !(lex w).isEmpty) then 0
  else
    let stress_options := (words.map fun w => wsp lex w).map fun s => [s.headD []]
    if stress_options.countP (fun p => p.length > 1) > 3 then 0
    else if minSyllablesOf stress_options > 10 ∨ maxSyllablesOf stress_options < 10 then 0
    else (cartProd stress_options).length

/-- Modelled from the claim's words for the refinement comparison: a
classifier tail that considers only the first pronunciation variant of
each word — after the same identical-words and dictionary-membership
rejections, it accepts iff the concatenation of the first variants'
stress digits matches the permissive template. -/
def first_variant_core (lex : Lexicon) (words : List String) : Bool :=
  if setSize1 words then false
  else if !(words.all fun w => !(lex w).isEmpty) then false
  else
    is_iambic_pentameter ((words.map fun w => (wsp lex w).headD []).flatten)

end TestCommon

namespace TestPy

/-- test.py `banned` (line 75): characters whose presence rejects the
raw text. -/
def banned : List Char := ['$', '#']

/-- test.py cleaning (lines 89-95): substitutions, lowercase, strip of
characters outside letters, digits, whitespace and apostrophe (digits
are kept — test.py has no numeral expansion), whitespace collapsing,
split. -/
def clean (text : String) : List String :=
  let s1 := pyReplace (pyReplace (pyReplace text.data ['&'] " and ".data)
              "w/".data "with".data) "w/o".data "without".data
  let s2 := (pyLower s1).filter fun c =>
    c.isAlpha || c.isDigit || isPyWs c || c == apos
  pySplit (collapseWs s2)

/-- test.py `check_iambic_pentameter`: raw word-count bounds 5..75,
banned-character rejection, cleaning, then the shared classifier
tail. -/
def check_iambic_pentameter (lex : Lexicon) (text : String) : Bool :=
  if (pySplit text.data).length < 5 ∨ (pySplit text.data).length > 75 then false
  else if banned.any (fun b => text.data.contains b) then false
  else TestCommon.stress_core lex (clean text)

/-- Number of stress combinations test.py's loop runs through. -/
def enumerated (lex : Lexicon) (text : String) : Nat :=
  if (pySplit text.data).length < 5 ∨ (pySplit text.data).length > 75 then 0
  else if banned.any (fun b => text.data.contains b) then 0
  else TestCommon.core_enumerated lex (clean text)

/-- Modelled from the claim's words: test.py's classifier restricted to
the first pronunciation variant of each word (same guards and cleaning,
then `TestCommon.first_variant_core`). -/
def first_variant_classifier (lex : Lexicon) (text : String) : Bool :=
  if (pySplit text.data).length < 5 ∨ (pySplit text.data).length > 75 then false
  else if banned.any (fun b => text.data.contains b) then false
  else TestCommon.first_variant_core lex (clean text)

end TestPy

namespace Test2Py

/-- test2.py `banned` (line 40). -/
def banned : List Char := ['$', '#', '@', '/']

/-- Lookup table for cardinals below twenty (test2.py `num2words`,
capitalized variant). -/
def under20 : List String :=
  ["Zero", "One", "Two", "Three", "Four", "Five", "Six", "Seven", "Eight",
   "Nine", "Ten", "Eleven", "Twelve", "Thirteen", "Fourteen", "Fifteen",
   "Sixteen", "Seventeen", "Eighteen", "Nineteen"]

/-- Lookup table for multiples of ten (test2.py `num2words`). -/
def tens : List String :=
  ["Twenty", "Thirty", "Forty", "Fifty", "Sixty", "Seventy", "Eighty",
   "Ninety"]

/-- Fuelled worker for test2.py `num2words`: pivots 100, 1000, one
million and one billion. -/
def num2wordsGo : Nat → Nat → String
  | 0, _ => ""
  | fuel + 1, n =>
    if n < 20 then under20.getD n ""
    else if n < 100 then
      tens.getD (n / 10 - 2) "" ++
        (if n % 10 == 0 then "" else " " ++ under20.getD (n % 10) "")
    else
      let pivot :=
        if n < 1000 then 100
        else if n < 1000000 then 1000
        else if n < 1000000000 then 1000000
        else 1000000000
      let pivotWord :=
        if n < 1000 then "Hundred"
        else if n < 1000000 then "Thousand"
        else if n < 1000000000 then "Million"
        else "Billion"
      num2wordsGo fuel (n / pivot) ++ " " ++ pivotWord ++
        (if n % pivot == 0 then "" else " " ++ num2wordsGo fuel (n % pivot))

/-- test2.py `num2words`. -/
def num2words (n : Nat) : String :=
  num2wordsGo (n + 1) n

/-- test2.py cleaning (lines 77-83): substitutions, numeral expansion,
lowercase, strip of characters outside letters, whitespace and
apostrophe, whitespace collapsing, split. -/
def clean (text : String) : List String :=
  let s1 := pyReplace (pyReplace (pyReplace text.data ['&'] " and ".data)
              "w/".data "with".data) "w/o".data "without".data
  let s2 := expandDigits num2words s1
  let s3 := (pyLower s2).filter fun c => c.isAlpha || isPyWs c || c == apos
  pySplit (collapseWs s3)

/-- test2.py `check_iambic_pentameter`: raw word-count bounds 5..75,
banned-character rejection, cleaning, then the shared classifier
tail. -/
def check_iambic_pentameter (lex : Lexicon) (text : String) : Bool :=
  if (pySplit text.data).length < 5 ∨ (pySplit text.data).length > 75 then false
  else if banned.any (fun b => text.data.contains b) then false
  else TestCommon.stress_core lex (clean text)

/-- Number of stress combinations test2.py's loop runs through. -/
def enumerated (lex : Lexicon) (text : String) : Nat :=
  if (pySplit text.data).length < 5 ∨ (pySplit text.data).length > 75 then 0
  else if banned.any (fun b => text.data.contains b) then 0
  else TestCommon.core_enumerated lex (clean text)

/-- Modelled from the claim's words: test2.py's classifier restricted
to the first pronunciation variant of each word. -/
def first_variant_classifier (lex : Lexicon) (text : String) : Bool :=
  if (pySplit text.data).length < 5 ∨ (pySplit text.data).length > 75 then false
  else if banned.any (fun b => text.data.contains b) then false
  else TestCommon.first_variant_core lex (clean text)

end Test2Py

/-! ### Helper lemmas -/

theorem foldl_min_le_init (l : List Nat) : ∀ a : Nat, l.foldl Nat.min a ≤ a := by
  induction l with
  | nil => intro a; exact Nat.le_refl a
  | cons b l ih =>
    intro a
    exact Nat.le_trans (ih (Nat.min a b)) (Nat.min_le_left a b)

theorem init_le_foldl_max (l : List Nat) : ∀ a : Nat, a ≤ l.foldl Nat.max a := by
  induction l with
  | nil => intro a; exact Nat.le_refl a
  | cons b l ih =>
    intro a
    exact Nat.le_trans (Nat.le_max_left a b) (ih (Nat.max a b))

theorem listMinN_singleton (a : Nat) : listMinN [a] = a := rfl

theorem listMaxN_singleton (a : Nat) : listMaxN [a] = a := rfl

/-- The shortest variant length of a nonempty stress profile is at most
the first variant's length. -/
theorem listMinN_le_headD (s : List (List Nat)) (hs : s ≠ []) :
    listMinN (s.map List.length) ≤ (s.headD []).length := by
  match s with
  | [] => exact absurd rfl hs
  | v :: vs =>
    simpa [listMinN] using foldl_min_le_init (vs.map List.length) v.length

/-- The first variant's length is at most the longest variant length. -/
theorem headD_le_listMaxN (s : List (List Nat)) (hs : s ≠ []) :
    (s.headD []).length ≤ listMaxN (s.map List.length) := by
  match s with
  | [] => exact absurd rfl hs
  | v :: vs =>
    simpa [listMaxN] using init_le_foldl_max (vs.map List.length) v.length

/-- The cartesian product of singleton choice lists is the single
combination of those choices. -/
theorem cartProd_singletons (g : α → β) (l : List α) :
    cartProd (l.map fun a => [g a]) = [l.map g] := by
  induction l with
  | nil => rfl
  | cons a l ih => simp [cartProd, ih]

/-- After the first-variant collapse every stress-option list is a
singleton, so no option counts as ambiguous. -/
theorem countP_collapsed_eq_zero (opts : List (List (List Nat))) :
    (opts.map fun s => [s.headD []]).countP (fun p => p.length > 1) = 0 := by
  rw [List.countP_eq_zero]
  intro a ha
  rw [List.mem_map] at ha
  obtain ⟨s, _, rfl⟩ := ha
  simp

/-- Unfolding a `Bool.all` over `enumFrom` into an indexed statement. -/
theorem enumFrom_all_iff (f : Nat × Nat → Bool) :
    ∀ (l : List Nat) (n : Nat),
      (List.enumFrom n l).all f = true ↔
        ∀ i, i < l.length → f (n + i, l.getD i 0) = true := by
  intro l
  induction l with
  | nil => intro n; simp
  | cons x xs ih =>
    intro n
    simp only [List.enumFrom, List.all_cons, Bool.and_eq_true, ih (n + 1)]
    constructor
    · rintro ⟨hx, hrest⟩ i hi
      cases i with
      | zero => simpa using hx
      | succ j =>
        have hj : j < xs.length := by simpa using hi
        have h := hrest j hj
        have e : n + 1 + j = n + (j + 1) := by omega
        rw [e] at h
        simpa using h
    · intro h
      refine ⟨by simpa using h 0 (by simp), fun j hj => ?_⟩
      have hh := h (j + 1) (by simpa using Nat.succ_lt_succ hj)
      have e : n + (j + 1) = n + 1 + j := by omega
      rw [e] at hh
      simpa using hh

/-- The permissive template rejects any pattern that is not 10 long. -/
theorem testIambic_of_length_ne (p : List Nat) (h : p.length ≠ 10) :
    TestCommon.is_iambic_pentameter p = false := by
  unfold TestCommon.is_iambic_pentameter
  have hb : (p.length == 10) = false := by simpa using h
  rw [hb, Bool.false_and]

/-- The strict template rejects any pattern that is not 10 long. -/
theorem strictIambic_of_length_ne (p : List Nat) (h : p.length ≠ 10) :
    Couplets.is_iambic_pentameter p = false := by
  unfold Couplets.is_iambic_pentameter
  have hb : (p.length == 10) = false := by simpa using h
  rw [hb, Bool.false_and]

/-- The collapsed stress options' `min_syllables` and `max_syllables`
both equal the summed first-variant length. -/
theorem collapsed_min_eq (l : List (List (List Nat))) :
    minSyllablesOf (l.map fun s => [s.headD []]) =
      (l.map fun s => (s.headD []).length).sum := by
  unfold minSyllablesOf
  rw [List.map_map]
  congr 1

theorem collapsed_max_eq (l : List (List (List Nat))) :
    maxSyllablesOf (l.map fun s => [s.headD []]) =
      (l.map fun s => (s.headD []).length).sum := by
  unfold maxSyllablesOf
  rw [List.map_map]
  congr 1

/-- Composed form of `cartProd_singletons` for collapsed stress
options. -/
theorem cartProd_collapsed (f : α → List (List Nat)) (l : List α) :
    cartProd ((l.map f).map fun s => [s.headD []]) =
      [l.map fun a => (f a).headD []] := by
  induction l with
  | nil => rfl
  | cons a l ih =>
    simp only [List.map_cons, cartProd]
    rw [ih]
    simp

/-- Composed form of `collapsed_min_eq`. -/
theorem collapsed_min_comp (f : α → List (List Nat)) (l : List α) :
    minSyllablesOf ((l.map f).map fun s => [s.headD []]) =
      (l.map fun a => ((f a).headD []).length).sum := by
  unfold minSyllablesOf
  rw [List.map_map, List.map_map]
  congr 1

/-- Composed form of `collapsed_max_eq`. -/
theorem collapsed_max_comp (f : α → List (List Nat)) (l : List α) :
    maxSyllablesOf ((l.map f).map fun s => [s.headD []]) =
      (l.map fun a => ((f a).headD []).length).sum := by
  unfold maxSyllablesOf
  rw [List.map_map, List.map_map]
  congr 1

/-- The shared classifier tail equals the first-variant-only
classifier tail: the collapse at test.py line 104 / test2.py line 92
makes the ambiguity guard and the syllable bounds redundant with the
template's own length check. -/
theorem core_equiv (lex : Lexicon) (words : List String) :
    TestCommon.stress_core lex words = TestCommon.first_variant_core lex words := by
  unfold TestCommon.stress_core TestCommon.first_variant_core
  by_cases h1 : TestCommon.setSize1 words
  · simp [h1]
  · by_cases h2 : words.all fun w => !(lex w).isEmpty
    · simp only [h1, if_false, h2, Bool.not_true, if_neg Bool.false_ne_true]
      rw [countP_collapsed_eq_zero]
      rw [if_neg (by omega : ¬(0 > 3))]
      rw [collapsed_min_comp, collapsed_max_comp, cartProd_collapsed]
      by_cases hL :
          (words.map fun a =>
            ((TestCommon.wsp lex a).headD []).length).sum = 10
      · rw [if_neg (by omega)]
        simp
      · rw [if_pos (by omega)]
        rw [testIambic_of_length_ne]
        rw [List.length_flatten, List.map_map]
        exact fun hc => hL (by simpa using hc)
    · simp [h1, h2]

/-- When the uncollapsed syllable bounds already rule out a 10-syllable
reading, the shared classifier tail rejects and enumerates nothing: the
collapsed first-variant syllable count lies between the uncollapsed
bounds, so the bound check at test.py lines 109-112 fires (when no
earlier guard fired first). -/
theorem core_reject_of_bounds (lex : Lexicon) (words : List String)
    (h : minSyllablesOf (words.map fun w => TestCommon.wsp lex w) > 10 ∨
         maxSyllablesOf (words.map fun w => TestCommon.wsp lex w) < 10) :
    TestCommon.stress_core lex words = false ∧
      TestCommon.core_enumerated lex words = 0 := by
  unfold TestCommon.stress_core TestCommon.core_enumerated
  by_cases h1 : TestCommon.setSize1 words
  · simp [h1]
  · by_cases h2 : words.all fun w => !(lex w).isEmpty
    · have hknown : ∀ w ∈ words, TestCommon.wsp lex w ≠ [] := by
        intro w hw
        have hlex : lex w ≠ [] := by
          simpa using (List.all_eq_true.mp h2) w hw
        simp [TestCommon.wsp, hlex]
      have hminL : minSyllablesOf (words.map fun w => TestCommon.wsp lex w) ≤
          (words.map fun w => ((TestCommon.wsp lex w).headD []).length).sum := by
        unfold minSyllablesOf
        rw [List.map_map]
        exact List.sum_le_sum fun w hw => listMinN_le_headD _ (hknown w hw)
      have hmaxL :
          (words.map fun w => ((TestCommon.wsp lex w).headD []).length).sum ≤
            maxSyllablesOf (words.map fun w => TestCommon.wsp lex w) := by
        unfold maxSyllablesOf
        rw [List.map_map]
        exact List.sum_le_sum fun w hw => headD_le_listMaxN _ (hknown w hw)
      have hfire :
          minSyllablesOf ((words.map fun w => TestCommon.wsp lex w).map
              fun s => [s.headD []]) > 10 ∨
          maxSyllablesOf ((words.map fun w => TestCommon.wsp lex w).map
              fun s => [s.headD []]) < 10 := by
        rw [collapsed_min_comp, collapsed_max_comp]
        omega
      constructor
      · simp only [h1, if_false, h2, Bool.not_true, if_neg Bool.false_ne_true]
        rw [countP_collapsed_eq_zero]
        rw [if_neg (by omega : ¬(0 > 3)), if_pos hfire]
      · simp only [h1, if_false, h2, Bool.not_true, if_neg Bool.false_ne_true]
        rw [countP_collapsed_eq_zero]
        rw [if_neg (by omega : ¬(0 > 3)), if_pos hfire]
    · simp [h1, h2]

/-! ### Concrete lexicons for witnesses and counterexamples -/

/-- Toy lexicon: four two-syllable words with two pronunciation
variants each and one unambiguous word. -/
def lexA : Lexicon := fun w =>
  if w = "aa" ∨ w = "bb" ∨ w = "cc" ∨ w = "dd" then
    [["AA0", "AA1"], ["AA1", "AA1"]]
  else if w = "ee" then [["AA0", "AA1"]]
  else []

/-- Toy lexicon: five two-syllable words with two pronunciation
variants each (2^5 = 32 stress combinations). -/
def lexB : Lexicon := fun w =>
  if w = "aa" ∨ w = "bb" ∨ w = "cc" ∨ w = "dd" ∨ w = "ee" then
    [["AA0", "AA1"], ["AA1", "AA1"]]
  else []

/-- Toy lexicon: words whose shortest pronunciation variant already has
six syllables. -/
def lexC : Lexicon := fun w =>
  if w = "aa" ∨ w = "bb" then
    [["AA1", "AA1", "AA1", "AA1", "AA1", "AA1"],
     ["AA1", "AA1", "AA1", "AA1", "AA1", "AA1", "AA1"]]
  else []

/-- Toy lexicon for the rhyme functions: an ambiguous word whose two
variants share the same ending, and unambiguous rhyming and
non-rhyming words. -/
def lexW : Lexicon := fun w =>
  if w = "bee" then [["B", "IY1"], ["B", "IY1"]]
  else if w = "cee" then [["S", "IY1"]]
  else if w = "cat" then [["K", "AE1", "T"]]
  else if w = "bat" then [["B", "AE1", "T"]]
  else if w = "ay" then [["EY1"]]
  else if w = "oh" then [["OW1"]]
  else []

/-! ### Claim theorems -/

/-- The strict template accepts a pattern exactly when it has 10
positions with stress 0 at every even index and 1 at every odd
index. -/
theorem strict_iambic_iff (p : List Nat) :
    Couplets.is_iambic_pentameter p = true ↔
      (p.length = 10 ∧ ∀ i, i < p.length →
        p.getD i 0 = if i % 2 = 0 then 0 else 1) := by
  unfold Couplets.is_iambic_pentameter
  rw [Bool.and_eq_true, beq_iff_eq]
  rw [show p.enum = List.enumFrom 0 p from rfl]
  rw [enumFrom_all_iff]
  constructor
  · rintro ⟨hlen, hall⟩
    refine ⟨hlen, fun i hi => ?_⟩
    have h := hall i hi
    simp only [Nat.zero_add] at h
    by_cases he : i % 2 = 0
    · simp only [he, if_pos rfl]
      simpa [he] using h
    · rw [if_neg he]
      have hb : (i % 2 == 0) = false := by simpa using he
      rw [hb] at h
      simpa using h
  · rintro ⟨hlen, hall⟩
    refine ⟨hlen, fun i hi => ?_⟩
    have h := hall i hi
    simp only [Nat.zero_add]
    by_cases he : i % 2 = 0
    · rw [if_pos he] at h
      have hb : (i % 2 == 0) = true := by simpa using he
      rw [hb, if_pos rfl]
      exact beq_iff_eq.mpr h
    · rw [if_neg he] at h
      have hb : (i % 2 == 0) = false := by simpa using he
      rw [hb, if_neg (by simp : ¬(false = true))]
      exact beq_iff_eq.mpr h

/-- C6: the strict iambic-pentameter template (couplets.py
`is_iambic_pentameter`) accepts exactly the 10-position stress
sequences with stress 0 at every even index and stress 1 at every odd
index; in particular it accepts [0,1,0,1,0,1,0,1,0,1], rejects
[1,1,0,1,0,1,0,1,0,1], and rejects every sequence whose length is not
10. -/
theorem c6_strict_iambic_template :
    (∀ p : List Nat, Couplets.is_iambic_pentameter p = true ↔
        (p.length = 10 ∧ ∀ i, i < p.length →
          p.getD i 0 = if i % 2 = 0 then 0 else 1))
    ∧ Couplets.is_iambic_pentameter [0, 1, 0, 1, 0, 1, 0, 1, 0, 1] = true
    ∧ Couplets.is_iambic_pentameter [1, 1, 0, 1, 0, 1, 0, 1, 0, 1] = false
    ∧ ∀ p : List Nat, p.length ≠ 10 →
        Couplets.is_iambic_pentameter p = false :=
  ⟨strict_iambic_iff, by decide, by decide, strictIambic_of_length_ne⟩

/-- C6 witness: the theorem applied to the length-3 sequence [0,1,0]. -/
theorem c6_strict_iambic_template_witness :
    Couplets.is_iambic_pentameter [0, 1, 0] = false :=
  c6_strict_iambic_template.2.2.2 [0, 1, 0] (by decide)

/-- C1 counterexample: the line "aa bb cc dd ee" under `lexA` has 4
normalized tokens with multiple pronunciation variants (more than 3),
yet couplets.py `check_iambic_pentameter` accepts it: the code has no
ambiguity guard, only the after-the-loop 24-pattern cap, and the line's
16 combinations stay under it while one matches the template. -/
theorem c1_counterexample :
    3 < Couplets.ambiguous_token_count lexA "aa bb cc dd ee" ∧
      Couplets.check_iambic_pentameter lexA "aa bb cc dd ee" = true := by
  constructor
  · decide
  · decide

/-- C1 (amended): a line with more than 3 ambiguous tokens is not
always rejected; couplets.py accepts it exactly when its full
variant-combination count is at most 24 and some enumerated combination
matches the strict template. -/
theorem c1_ambiguity_not_always_rejected :
    ∀ (lex : Lexicon) (raw : String),
      3 < Couplets.ambiguous_token_count lex raw →
      (Couplets.check_iambic_pentameter lex raw = true ↔
        Couplets.enumerated lex raw ≤ 24 ∧ Couplets.anyMatch lex raw = true) := by
  intro lex raw _
  unfold Couplets.check_iambic_pentameter Couplets.enumerated Couplets.anyMatch
  by_cases h1 : raw.data.contains '\n' = true
  · simp only [if_pos h1]
    simp
  · simp only [if_neg h1]
    by_cases h2 : ((pySplit (Couplets.normalize_text raw.data)).isEmpty ||
        (pySplit (Couplets.normalize_text raw.data)).any fun w =>
          (lex w).isEmpty) = true
    · simp only [if_pos h2]
      simp
    · simp only [if_neg h2]
      by_cases h3 :
          (cartProd ((pySplit (Couplets.normalize_text raw.data)).map fun w =>
            Couplets.wsp lex w)).length > 24
      · simp only [if_pos h3]
        constructor
        · intro hc
          exact absurd hc (by simp)
        · rintro ⟨hle, _⟩
          exact absurd hle (by omega)
      · simp only [if_neg h3]
        have hy : (cartProd ((pySplit (Couplets.normalize_text raw.data)).map
            fun w => Couplets.wsp lex w)).length ≤ 24 := by omega
        simp [hy]

/-- C1 witness: the amended equivalence applied to the concrete
over-ambiguous line of the counterexample's shape. -/
theorem c1_ambiguity_not_always_rejected_witness :
    Couplets.check_iambic_pentameter lexA "aa bb cc dd ee" = true ↔
      Couplets.enumerated lexA "aa bb cc dd ee" ≤ 24 ∧
        Couplets.anyMatch lexA "aa bb cc dd ee" = true :=
  c1_ambiguity_not_always_rejected lexA "aa bb cc dd ee" (by decide)

/-- C2 counterexample: the line "aa bb cc dd ee" under `lexB` has a
variant product of 32 combinations; couplets.py does reject it, but
only after its loop has run through all 32 combinations — more than the
24 the claim says bound the evaluation (the cap is checked only after
the loop finishes). -/
theorem c2_counterexample :
    Couplets.enumerated lexB "aa bb cc dd ee" = 32 ∧
      24 < Couplets.enumerated lexB "aa bb cc dd ee" ∧
      Couplets.check_iambic_pentameter lexB "aa bb cc dd ee" = false ∧
      Couplets.anyMatch lexB "aa bb cc dd ee" = true := by
  refine ⟨by decide, by decide, by decide, by decide⟩

/-- C2 (amended): a line whose variant product exceeds 24 combinations
is rejected, but the full product is enumerated first — the evaluated
count equals the product size, not at most 24. -/
theorem c2_over_cap_rejected :
    ∀ (lex : Lexicon) (raw : String),
      24 < Couplets.enumerated lex raw →
      Couplets.check_iambic_pentameter lex raw = false := by
  intro lex raw h
  unfold Couplets.enumerated at h
  unfold Couplets.check_iambic_pentameter
  by_cases h1 : raw.data.contains '\n' = true
  · rw [if_pos h1]
  · simp only [if_neg h1] at h ⊢
    by_cases h2 : ((pySplit (Couplets.normalize_text raw.data)).isEmpty ||
        (pySplit (Couplets.normalize_text raw.data)).any fun w =>
          (lex w).isEmpty) = true
    · rw [if_pos h2]
    · simp only [if_neg h2] at h ⊢
      rw [if_pos h]

/-- C2 witness: the amended rejection applied to a concrete 32
combination line. -/
theorem c2_over_cap_rejected_witness :
    Couplets.check_iambic_pentameter lexB "bb cc dd ee aa" = false :=
  c2_over_cap_rejected lexB "bb cc dd ee aa" (by decide)

/-- C3 counterexample: for the line "aa bb" under `lexC` the claim's
bounds give min_syllables = 12 > 10, yet couplets.py enumerates all 4
variant combinations (it performs no length pruning at all) before
returning the rejection. -/
theorem c3_counterexample :
    Couplets.min_syllables lexC "aa bb" = 12 ∧
      10 < Couplets.min_syllables lexC "aa bb" ∧
      Couplets.enumerated lexC "aa bb" = 4 ∧
      Couplets.enumerated lexC "aa bb" ≠ 0 ∧
      Couplets.check_iambic_pentameter lexC "aa bb" = false := by
  refine ⟨by decide, by decide, by decide, by decide, by decide⟩

/-- C3 (amended): couplets.py performs no length pruning; in test.py
and test2.py the pruning exists but operates on the collapsed
first-variant stress options, whose syllable count lies between the
claim's min_syllables and max_syllables — so whenever min_syllables
exceeds 10 or max_syllables is below 10 those classifiers do reject
the line before enumerating any combination. -/
theorem c3_length_bound_prunes :
    ∀ (lex : Lexicon) (text : String),
      (minSyllablesOf ((TestPy.clean text).map fun w => TestCommon.wsp lex w) > 10 ∨
          maxSyllablesOf ((TestPy.clean text).map fun w => TestCommon.wsp lex w) < 10 →
        TestPy.check_iambic_pentameter lex text = false ∧
          TestPy.enumerated lex text = 0)
      ∧
      (minSyllablesOf ((Test2Py.clean text).map fun w => TestCommon.wsp lex w) > 10 ∨
          maxSyllablesOf ((Test2Py.clean text).map fun w => TestCommon.wsp lex w) < 10 →
        Test2Py.check_iambic_pentameter lex text = false ∧
          Test2Py.enumerated lex text = 0) := by
  intro lex text
  constructor
  · intro h
    unfold TestPy.check_iambic_pentameter TestPy.enumerated
    by_cases h1 : (pySplit text.data).length < 5 ∨ (pySplit text.data).length > 75
    · rw [if_pos h1, if_pos h1]
      exact ⟨rfl, rfl⟩
    · simp only [if_neg h1]
      by_cases h2 : (TestPy.banned.any fun b => text.data.contains b) = true
      · rw [if_pos h2, if_pos h2]
        exact ⟨rfl, rfl⟩
      · simp only [if_neg h2]
        exact core_reject_of_bounds lex (TestPy.clean text) h
  · intro h
    unfold Test2Py.check_iambic_pentameter Test2Py.enumerated
    by_cases h1 : (pySplit text.data).length < 5 ∨ (pySplit text.data).length > 75
    · rw [if_pos h1, if_pos h1]
      exact ⟨rfl, rfl⟩
    · simp only [if_neg h1]
      by_cases h2 : (Test2Py.banned.any fun b => text.data.contains b) = true
      · rw [if_pos h2, if_pos h2]
        exact ⟨rfl, rfl⟩
      · simp only [if_neg h2]
        exact core_reject_of_bounds lex (Test2Py.clean text) h

/-- C3 witness: the amended pruning applied to the concrete line
"aa bb aa bb aa" under `lexC` (shortest reading 30 syllables). -/
theorem c3_length_bound_prunes_witness :
    TestPy.check_iambic_pentameter lexC "aa bb aa bb aa" = false ∧
      TestPy.enumerated lexC "aa bb aa bb aa" = 0 ∧
      Test2Py.check_iambic_pentameter lexC "aa bb aa bb aa" = false ∧
      Test2Py.enumerated lexC "aa bb aa bb aa" = 0 := by
  have h1 := (c3_length_bound_prunes lexC "aa bb aa bb aa").1 (Or.inl (by decide))
  have h2 := (c3_length_bound_prunes lexC "aa bb aa bb aa").2 (Or.inl (by decide))
  exact ⟨h1.1, h1.2, h2.1, h2.2⟩

/-- Concrete posts for the pairing claims. -/
def postCat0 : BlueskyPost := ⟨"I like my cat", 0⟩

/-- Second post of the counterexample pair, 86401 seconds later. -/
def postBat86401 : BlueskyPost := ⟨"we see a bat", 86401⟩

/-- Posts for the witness pair, 86400 seconds apart. -/
def postCat100 : BlueskyPost := ⟨"I like my cat", 100⟩

/-- Second post of the witness pair. -/
def postBat86500 : BlueskyPost := ⟨"we see a bat", 86500⟩

/-- C4 counterexample: two accepted lines with equal rhyme keys whose
timestamps differ by 86401 seconds are still emitted as a couplet by
couplets.py `find_rhyming_couplets` — the pairing loop consults no time
window at all. -/
theorem c4_counterexample :
    Couplets.find_rhyming_couplets lexW [postCat0, postBat86401] =
        [⟨postCat0, postBat86401⟩] ∧
      RhymingCouplet.time_difference ⟨postCat0, postBat86401⟩ = 86401 ∧
      86400 < RhymingCouplet.time_difference ⟨postCat0, postBat86401⟩ := by
  refine ⟨by decide, by decide, by decide⟩

/-- C4 (amended): couplets.py applies no time window when pairing: any
two posts whose last words rhyme are emitted as a couplet regardless of
how far apart their timestamps are. -/
theorem c4_no_window_pairing :
    ∀ (lex : Lexicon) (p1 p2 : BlueskyPost) (w1 w2 : String),
      Couplets.get_last_word p1.post_text = some w1 →
      Couplets.get_last_word p2.post_text = some w2 →
      Couplets.do_words_rhyme lex w1 w2 = some true →
      Couplets.find_rhyming_couplets lex [p1, p2] = [⟨p1, p2⟩] := by
  intro lex p1 p2 w1 w2 h1 h2 h3
  simp [Couplets.find_rhyming_couplets, h1, h2, h3]

/-- C4 witness: the amended pairing applied to two concrete posts
exactly 86400 seconds apart. -/
theorem c4_no_window_pairing_witness :
    Couplets.find_rhyming_couplets lexW [postCat100, postBat86500] =
        [⟨postCat100, postBat86500⟩] ∧
      RhymingCouplet.time_difference ⟨postCat100, postBat86500⟩ = 86400 :=
  ⟨c4_no_window_pairing lexW postCat100 postBat86500 "cat" "bat"
      (by decide) (by decide) (by decide),
    by decide⟩

/-- C5: whenever at least one of the two words has more than one
pronunciation variant in the lexicon, couplets.py `do_words_rhyme`
returns False — even when every variant yields the same terminal
ending. -/
theorem c5_multi_variant_never_rhymes :
    ∀ (lex : Lexicon) (w1 w2 : String),
      1 < (lex (pyLowerS w1)).length ∨ 1 < (lex (pyLowerS w2)).length →
      Couplets.do_words_rhyme lex w1 w2 = some false := by
  intro lex w1 w2 h
  unfold Couplets.do_words_rhyme
  by_cases heq : pyLowerS w1 = pyLowerS w2
  · rw [if_pos heq]
  · rw [if_neg heq]
    have e1 : (Couplets.get_all_phoneme_endings lex w1).length =
        (lex (pyLowerS w1)).length := by
      simp [Couplets.get_all_phoneme_endings]
    have e2 : (Couplets.get_all_phoneme_endings lex w2).length =
        (lex (pyLowerS w2)).length := by
      simp [Couplets.get_all_phoneme_endings]
    by_cases hemp : ((Couplets.get_all_phoneme_endings lex w1).isEmpty ||
        (Couplets.get_all_phoneme_endings lex w2).isEmpty) = true
    · rw [if_pos hemp]
    · rw [if_neg hemp]
      have hlen : ((Couplets.get_all_phoneme_endings lex w1).length > 1 ||
          (Couplets.get_all_phoneme_endings lex w2).length > 1) = true := by
        rw [Bool.or_eq_true]
        rcases h with h | h
        · exact Or.inl (by rw [e1]; simpa using h)
        · exact Or.inr (by rw [e2]; simpa using h)
      rw [if_pos hlen]

/-- C5 witness: "bee" has two pronunciation variants in `lexW`, both
with the identical ending IY1, yet it rhymes with nothing — here with
the unambiguous same-ending word "cee". -/
theorem c5_multi_variant_never_rhymes_witness :
    Couplets.do_words_rhyme lexW "bee" "cee" = some false ∧
      Couplets.get_all_phoneme_endings lexW "bee" = [["IY1"], ["IY1"]] :=
  ⟨c5_multi_variant_never_rhymes lexW "bee" "cee" (Or.inl (by decide)),
    by decide⟩

/-- C7: two words that are equal case-insensitively — in particular any
word paired with itself — never rhyme according to couplets.py
`do_words_rhyme`, regardless of their rhyme keys. -/
theorem c7_self_non_rhyme :
    ∀ (lex : Lexicon) (w1 w2 : String),
      pyLowerS w1 = pyLowerS w2 →
      Couplets.do_words_rhyme lex w1 w2 = some false := by
  intro lex w1 w2 h
  unfold Couplets.do_words_rhyme
  rw [if_pos h]

/-- C7 witness: "cat" does not rhyme with itself, nor with its
capitalized form, although its rhyme key equals itself. -/
theorem c7_self_non_rhyme_witness :
    Couplets.do_words_rhyme lexW "cat" "cat" = some false ∧
      Couplets.do_words_rhyme lexW "Cat" "cat" = some false :=
  ⟨c7_self_non_rhyme lexW "cat" "cat" rfl,
    c7_self_non_rhyme lexW "Cat" "cat" (by decide)⟩

/-- The collapsed stress options always produce exactly one
combination. -/
theorem cartProd_collapsed_length (opts : List (List (List Nat))) :
    (cartProd (opts.map fun s => [s.headD []])).length = 1 := by
  induction opts with
  | nil => rfl
  | cons a l ih =>
    simp only [List.map_cons, cartProd]
    simpa using ih

/-- C8: the revised classifiers (test.py and test2.py) are equivalent
to a classifier using only the first pronunciation variant of each
word: the collapse at test.py line 104 / test2.py line 92 turns every
stress-option list into a singleton, so the product has exactly one
combination, the ambiguous-word count is always zero, and the
more-than-3-ambiguous-words branch is unreachable. -/
theorem c8_first_variant_refinement :
    (∀ (lex : Lexicon) (text : String),
        TestPy.check_iambic_pentameter lex text =
          TestPy.first_variant_classifier lex text)
    ∧ (∀ (lex : Lexicon) (text : String),
        Test2Py.check_iambic_pentameter lex text =
          Test2Py.first_variant_classifier lex text)
    ∧ (∀ opts : List (List (List Nat)),
        (opts.map fun s => [s.headD []]).countP (fun p => p.length > 1) = 0)
    ∧ (∀ opts : List (List (List Nat)),
        (cartProd (opts.map fun s => [s.headD []])).length = 1) := by
  refine ⟨?_, ?_, countP_collapsed_eq_zero, cartProd_collapsed_length⟩
  · intro lex text
    unfold TestPy.check_iambic_pentameter TestPy.first_variant_classifier
    by_cases h1 : (pySplit text.data).length < 5 ∨ (pySplit text.data).length > 75
    · rw [if_pos h1, if_pos h1]
    · simp only [if_neg h1]
      by_cases h2 : (TestPy.banned.any fun b => text.data.contains b) = true
      · rw [if_pos h2, if_pos h2]
      · simp only [if_neg h2]
        exact core_equiv lex (TestPy.clean text)
  · intro lex text
    unfold Test2Py.check_iambic_pentameter Test2Py.first_variant_classifier
    by_cases h1 : (pySplit text.data).length < 5 ∨ (pySplit text.data).length > 75
    · rw [if_pos h1, if_pos h1]
    · simp only [if_neg h1]
      by_cases h2 : (Test2Py.banned.any fun b => text.data.contains b) = true
      · rw [if_pos h2, if_pos h2]
      · simp only [if_neg h2]
        exact core_equiv lex (Test2Py.clean text)

/-- C9: test.py and test2.py `check_iambic_pentameter` reject, before
any lexicon lookup, every raw text with fewer than 5 or more than 75
whitespace-separated words. -/
theorem c9_word_count_gate :
    ∀ (lex : Lexicon) (text : String),
      (pySplit text.data).length < 5 ∨ (pySplit text.data).length > 75 →
      TestPy.check_iambic_pentameter lex text = false ∧
        Test2Py.check_iambic_pentameter lex text = false := by
  intro lex text h
  constructor
  · unfold TestPy.check_iambic_pentameter
    rw [if_pos h]
  · unfold Test2Py.check_iambic_pentameter
    rw [if_pos h]

/-- C9 witness: the gate applied to a two-word text and to a 76-word
text, under a lexicon that would otherwise accept anything. -/
theorem c9_word_count_gate_witness :
    (pySplit "one two".data).length = 2 ∧
      TestPy.check_iambic_pentameter lexW "one two" = false ∧
      Test2Py.check_iambic_pentameter lexW "one two" = false := by
  refine ⟨by decide, ?_, ?_⟩
  · exact (c9_word_count_gate lexW "one two" (Or.inl (by decide))).1
  · exact (c9_word_count_gate lexW "one two" (Or.inl (by decide))).2

/-- C10: couplets.py `do_words_rhyme` is not boolean-total: for
case-insensitively distinct words that each have exactly one
pronunciation ending, with the two endings different, the function
falls off the end and returns None; it returns False exactly in the
equal-word, missing-ending and ambiguous-ending cases. -/
theorem c10_none_on_distinct_unique_endings :
    (∀ (lex : Lexicon) (w1 w2 : String),
        pyLowerS w1 ≠ pyLowerS w2 →
        (Couplets.get_all_phoneme_endings lex w1).length = 1 →
        (Couplets.get_all_phoneme_endings lex w2).length = 1 →
        Couplets.get_all_phoneme_endings lex w1 ≠
          Couplets.get_all_phoneme_endings lex w2 →
        Couplets.do_words_rhyme lex w1 w2 = none)
    ∧ (∀ (lex : Lexicon) (w1 w2 : String),
        Couplets.do_words_rhyme lex w1 w2 = some false ↔
          (pyLowerS w1 = pyLowerS w2 ∨
            Couplets.get_all_phoneme_endings lex w1 = [] ∨
            Couplets.get_all_phoneme_endings lex w2 = [] ∨
            1 < (Couplets.get_all_phoneme_endings lex w1).length ∨
            1 < (Couplets.get_all_phoneme_endings lex w2).length)) := by
  constructor
  · intro lex w1 w2 hne hl1 hl2 hee
    obtain ⟨a, ha⟩ := List.length_eq_one.mp hl1
    obtain ⟨b, hb⟩ := List.length_eq_one.mp hl2
    have hab : a ≠ b := by
      intro hc
      exact hee (by rw [ha, hb, hc])
    unfold Couplets.do_words_rhyme
    rw [if_neg hne]
    rw [ha, hb]
    simp [hab]
  · intro lex w1 w2
    unfold Couplets.do_words_rhyme
    by_cases heq : pyLowerS w1 = pyLowerS w2
    · rw [if_pos heq]
      simp [heq]
    · rw [if_neg heq]
      by_cases hemp : ((Couplets.get_all_phoneme_endings lex w1).isEmpty ||
          (Couplets.get_all_phoneme_endings lex w2).isEmpty) = true
      · rw [if_pos hemp]
        rw [Bool.or_eq_true, List.isEmpty_iff, List.isEmpty_iff] at hemp
        simp [heq, hemp]
        tauto
      · rw [if_neg hemp]
        rw [Bool.or_eq_true, List.isEmpty_iff, List.isEmpty_iff] at hemp
        push_neg at hemp
        by_cases hlen : ((Couplets.get_all_phoneme_endings lex w1).length > 1 ||
            (Couplets.get_all_phoneme_endings lex w2).length > 1) = true
        · rw [if_pos hlen]
          rw [Bool.or_eq_true] at hlen
          simp only [decide_eq_true_eq] at hlen
          simp [heq, hemp.1, hemp.2]
          tauto
        · rw [if_neg hlen]
          rw [Bool.or_eq_true] at hlen
          push_neg at hlen
          have hn1 : ¬(1 < (Couplets.get_all_phoneme_endings lex w1).length) := by
            intro hc
            exact hlen.1 (by simpa using hc)
          have hn2 : ¬(1 < (Couplets.get_all_phoneme_endings lex w2).length) := by
            intro hc
            exact hlen.2 (by simpa using hc)
          by_cases hh : (Couplets.get_all_phoneme_endings lex w1).headD [] =
              (Couplets.get_all_phoneme_endings lex w2).headD []
          · rw [if_pos hh]
            simp [heq, hemp.1, hemp.2, hn1, hn2]
          · rw [if_neg hh]
            simp [heq, hemp.1, hemp.2, hn1, hn2]

/-- C10 witness: under `lexW` the distinct words "ay" and "oh" each
have exactly one ending and the endings differ, so `do_words_rhyme`
returns None rather than False. -/
theorem c10_none_on_distinct_unique_endings_witness :
    Couplets.do_words_rhyme lexW "ay" "oh" = none :=
  c10_none_on_distinct_unique_endings.1 lexW "ay" "oh"
    (by decide) (by decide) (by decide) (by decide)
